import Mathlib

/-!
Shallow embedding of the Brave Search research agent
(`use-cases/pydantic-ai/brave_search_agent`): the rate-limited search tool
`brave_search_tool` (tools.py), the settings loader (settings.py), the
dependency bundle (dependencies.py) and the two convenience entry points
(agent.py).  Python exceptions are modelled as values of `PyExn`; the
side effects the claims talk about (acquiring the shared rate limiter,
issuing the HTTP GET, creating and closing the HTTP client) are recorded
in explicit effect traces.
-/

namespace BraveSearch

/-- A Python exception as the tool's `try/except` sees it: `isTimeout` is
true exactly for `asyncio.TimeoutError`; `msg` is `str(e)`.  Every value
models an `Exception` subclass (the only kind the HTTP stack raises). -/
structure PyExn where
  isTimeout : Bool
  msg : String
deriving DecidableEq, Repr

/-- A JSON value as `response.json()` returns it: a dict, a list, a string,
or any other Python value (`prim` carries its `str()` rendering and its
truthiness). -/
inductive JsonVal where
  | obj (fields : List (String × JsonVal))
  | arr (elems : List JsonVal)
  | str (s : String)
  | prim (rep : String) (truthy : Bool)

/-- Python truthiness (`if not web_results:`): empty dicts, lists and
strings are falsy. -/
def JsonVal.isTruthy : JsonVal → Bool
  | .obj fields => !fields.isEmpty
  | .arr elems => !elems.isEmpty
  | .str s => !(s == "")
  | .prim _ t => t

mutual
/-- Python `repr` of a JSON value (used by `str()` on dicts and lists). -/
def JsonVal.pyRepr : JsonVal → String
  | .obj fields => "\x7b" ++ pyReprFields fields ++ "\x7d"
  | .arr elems => "[" ++ pyReprElems elems ++ "]"
  | .str s => "\x27" ++ s ++ "\x27"
  | .prim rep _ => rep

/-- `repr` of a dict's fields, comma separated. -/
def pyReprFields : List (String × JsonVal) → String
  | [] => ""
  | [(k, v)] => "\x27" ++ k ++ "\x27: " ++ v.pyRepr
  | (k, v) :: rest => "\x27" ++ k ++ "\x27: " ++ v.pyRepr ++ ", " ++ pyReprFields rest

/-- `repr` of a list's elements, comma separated. -/
def pyReprElems : List JsonVal → String
  | [] => ""
  | [v] => v.pyRepr
  | v :: rest => v.pyRepr ++ ", " ++ pyReprElems rest
end

/-- Python `str()` as the tool's f-strings apply it to a field value. -/
def JsonVal.pyStr : JsonVal → String
  | .str s => s
  | .prim rep _ => rep
  | v => v.pyRepr

/-- Python `v.get(key, default)`: succeeds only when the receiver is a
dict (on any other value `.get` raises `AttributeError`, a non-timeout
exception). -/
def JsonVal.dictGet (v : JsonVal) (key : String) (default : JsonVal) :
    Except PyExn JsonVal :=
  match v with
  | .obj fields => .ok ((fields.lookup key).getD default)
  | _ => .error ⟨false, "object has no attribute 'get'"⟩

/-- Python iteration `for result in web_results`: dicts yield their keys,
lists their elements, strings their characters; anything else raises
`TypeError`, a non-timeout exception. -/
def JsonVal.pyIterate : JsonVal → Except PyExn (List JsonVal)
  | .obj fields => .ok (fields.map fun kv => .str kv.1)
  | .arr elems => .ok elems
  | .str s => .ok (s.toList.map fun c => .str (String.singleton c))
  | .prim _ _ => .error ⟨false, "object is not iterable"⟩

/-- Python `s.strip()`: the string with leading and trailing whitespace
removed (structurally recursive over the character list, so that concrete
calls evaluate). -/
def pyStrip (s : String) : String :=
  ⟨((s.data.dropWhile Char.isWhitespace).reverse.dropWhile
      Char.isWhitespace).reverse⟩

/-- Python `s.lower()` (structurally recursive over the character list, so
that concrete calls evaluate). -/
def pyLower (s : String) : String :=
  ⟨s.data.map Char.toLower⟩

/-- The endpoint `brave_search_tool` GETs (tools.py line 66). -/
def braveApiUrl : String := "https://api.search.brave.com/res/v1/web/search"

/-- tools.py line 91: the no-results message. -/
def noResultsMsg (query : String) : String :=
  "No search results found for query: " ++ query

/-- tools.py line 94: the header of the formatted report. -/
def resultsHeader (query : String) : String :=
  "Search Results for '" ++ query ++ "':\n\n"

/-- tools.py lines 96-103, one pass of the loop: `result.get` each of the
three fields with its placeholder default and render the numbered block. -/
def formatEntry (i : Nat) (result : JsonVal) : Except PyExn String :=
  match result.dictGet "title" (.str "No title") with
  | .error e => .error e
  | .ok title =>
    match result.dictGet "url" (.str "No URL") with
    | .error e => .error e
    | .ok url =>
      match result.dictGet "description" (.str "No description") with
      | .error e => .error e
      | .ok description =>
        .ok (toString i ++ ". **" ++ title.pyStr ++ "**\n   URL: " ++ url.pyStr
          ++ "\n   " ++ description.pyStr ++ "\n\n")

/-- tools.py lines 96-103: the `for i, result in enumerate(web_results, 1)`
loop, appending each block to the accumulated text; an exception in any
pass propagates. -/
def formatEntries : Nat → List JsonVal → Except PyExn String
  | _, [] => .ok ""
  | i, r :: rs =>
    match formatEntry i r with
    | .error e => .error e
    | .ok block =>
      match formatEntries (i + 1) rs with
      | .error e => .error e
      | .ok rest => .ok (block ++ rest)

/-- tools.py line 88: `data.get("web", {}).get("results", [])`. -/
def walkWebResults (data : JsonVal) : Except PyExn JsonVal :=
  match data.dictGet "web" (.obj []) with
  | .error e => .error e
  | .ok web => web.dictGet "results" (.arr [])

/-- tools.py lines 87-106 after a 200 response whose body parsed: walk the
JSON shape, return the no-results message for a falsy results value, else
format the report. -/
def formatData (query : String) (data : JsonVal) : Except PyExn String :=
  match walkWebResults data with
  | .error e => .error e
  | .ok webResults =>
    if !webResults.isTruthy then .ok (noResultsMsg query)
    else
      match webResults.pyIterate with
      | .error e => .error e
      | .ok items =>
        match formatEntries 1 items with
        | .error e => .error e
        | .ok entries => .ok (resultsHeader query ++ entries)

/-- What the environment does when the tool issues its GET: either a
response (status code, `response.text`, and the result of
`response.json()` — `.error` being a `json.JSONDecodeError` message), or
an exception raised by the HTTP client. -/
inductive HttpResult where
  | response (status : Nat) (text : String) (body : Except String JsonVal)
  | raised (e : PyExn)

/-- tools.py lines 52-106, the body of the `try`: dispatch on the status
code (429, then 401, then any non-200), and on 200 parse and format;
exceptions (including the JSON decode error, which is not a timeout)
propagate to the handlers. -/
def requestAndFormat (query : String) (outcome : HttpResult) : Except PyExn String :=
  match outcome with
  | .raised e => .error e
  | .response status text body =>
    if status == 429 then
      .ok "Error: Rate limit exceeded. Please try again in a moment."
    else if status == 401 then
      .ok "Error: Invalid Brave API key. Please check your configuration."
    else if status != 200 then
      .ok ("Error: Brave API returned " ++ toString status ++ ": " ++ text.take 200)
    else
      match body with
      | .error jsonErr => .error ⟨false, jsonErr⟩
      | .ok data => formatData query data

/-- tools.py lines 108-115: `except asyncio.TimeoutError` then
`except Exception as e`.  Every modelled exception is an `Exception`
subclass, so both arms turn the exception into a string result. -/
def pyTryExcept (body : Except PyExn String) : Except PyExn String :=
  match body with
  | .ok s => .ok s
  | .error e =>
    if e.isTimeout then .ok "Error: Search request timed out"
    else .ok ("Error: Search failed: " ++ e.msg)

/-- One observable side effect of a `brave_search_tool` call: acquiring the
shared rate limiter, or the single `session.get` with its query
parameters. -/
inductive Effect where
  | limiterAcquire
  | httpGet (url : String) (subscriptionToken : String) (q : String)
      (count : Int) (searchLang : String)
deriving DecidableEq, Repr

/-- tools.py lines 16-115, `brave_search_tool`: guard the API key and the
query (each `if not x or not x.strip()` early-returns before the limiter
is touched), clamp `max_results` to 1..20, then under the limiter issue
the GET and run the `try/except` over the response handling.  The result
is the returned string paired with the trace of effects; a `.error`
result would be an exception escaping the function. -/
def brave_search_tool (api_key : String) (query : String) (max_results : Int)
    (outcome : HttpResult) : Except PyExn (String × List Effect) :=
  if api_key == "" || pyStrip api_key == "" then
    .ok ("Error: Brave API key is required", [])
  else if query == "" || pyStrip query == "" then
    .ok ("Error: Search query cannot be empty", [])
  else
    let clamped := min (max max_results 1) 20
    match pyTryExcept (requestAndFormat query outcome) with
    | .error e => .error e
    | .ok s =>
      .ok (s, [.limiterAcquire, .httpGet braveApiUrl api_key query clamped "en"])

/-- agent.py lines 50-85, the registered tool `search_web`: clamp
`max_results` to 1..20 and delegate to `brave_search_tool`; its
`except Exception` wrapper turns an escaping exception into a
"Web search failed" string (unreachable: the tool returns `.ok` for every
outcome). -/
def search_web (brave_api_key : String) (query : String) (max_results : Int)
    (outcome : HttpResult) : Except PyExn (String × List Effect) :=
  let clamped := min (max max_results 1) 20
  match brave_search_tool brave_api_key query clamped outcome with
  | .ok out => .ok out
  | .error e => .ok ("Web search failed: " ++ e.msg, [])

/-- settings.py lines 15-44: the validated configuration object. -/
structure Settings where
  llm_provider : String
  llm_api_key : String
  llm_model : String
  llm_base_url : String
  brave_api_key : String
  brave_search_url : String
  app_env : String
  log_level : String
  debug : Bool
deriving DecidableEq, Repr

/-- The environment (process variables merged with the `.env` file) as the
settings loader reads it: for each field, the raw string provided or
`none`.  Every value is a string — in particular `debug`, which pydantic
must still coerce to the field's `bool` type. -/
structure EnvVars where
  llm_provider : Option String := none
  llm_api_key : Option String := none
  llm_model : Option String := none
  llm_base_url : Option String := none
  brave_api_key : Option String := none
  brave_search_url : Option String := none
  app_env : Option String := none
  log_level : Option String := none
  debug : Option String := none

/-- Pydantic's string-to-boolean coercion, applied to the `debug: bool`
field (settings.py line 44): the lowercased value must be one of the
recognised true/false spellings, anything else is a validation error. -/
def parseBool (s : String) : Except String Bool :=
  let l := pyLower s
  if l == "true" || l == "t" || l == "yes" || l == "y" || l == "on" || l == "1" then
    .ok true
  else if l == "false" || l == "f" || l == "no" || l == "n" || l == "off" || l == "0" then
    .ok false
  else
    .error "Input should be a valid boolean, unable to interpret input"

/-- Pydantic's validation of the `debug` field: absent means the default
`False`, a present value must coerce to a boolean; the produced message
names the field (as pydantic's `str(e)` does). -/
def debugParse : Option String → Except String Bool
  | none => .ok false
  | some s =>
    match parseBool s with
    | .ok b => .ok b
    | .error m => .error ("debug\n  " ++ m)

/-- settings.py lines 46-52, the field validator on `llm_api_key` and
`brave_api_key`: `if not v or v.strip() == ""` raise `ValueError`. -/
def validate_api_keys (v : String) : Except String String :=
  if v == "" || pyStrip v == "" then .error "API key cannot be empty"
  else .ok v

/-- Pydantic's validation of one required key field: missing means a
"Field required" error, a present value runs `validate_api_keys`; the
produced message names the field (as pydantic's `str(e)` does). -/
def fieldError (fieldName : String) : Option String → Option String
  | none => some (fieldName ++ "\n  Field required")
  | some v =>
    match validate_api_keys v with
    | .error m => some (fieldName ++ "\n  Value error, " ++ m)
    | .ok _ => none

/-- settings.py line 61, `Settings()`: validate both required keys and
coerce the `debug` value to a boolean (collecting the error messages into
one exception text in field order, as pydantic does), fill every other
field — all typed `str`, so no coercion of them can fail — from the
environment or its default. -/
def settingsInit (env : EnvVars) : Except String Settings :=
  match fieldError "llm_api_key" env.llm_api_key,
        fieldError "brave_api_key" env.brave_api_key,
        debugParse env.debug with
  | none, none, .ok b =>
    .ok { llm_provider := env.llm_provider.getD "openai"
          llm_api_key := env.llm_api_key.getD ""
          llm_model := env.llm_model.getD "gpt-4o"
          llm_base_url := env.llm_base_url.getD "https://api.openai.com/v1"
          brave_api_key := env.brave_api_key.getD ""
          brave_search_url :=
            env.brave_search_url.getD "https://api.search.brave.com/res/v1/web/search"
          app_env := env.app_env.getD "development"
          log_level := env.log_level.getD "INFO"
          debug := b }
  | e1, e2, d =>
    .error ("validation error for Settings\n"
      ++ String.intercalate "\n"
        (e1.toList ++ e2.toList
          ++ (match d with | .ok _ => [] | .error m => [m])))

/-- Python `pat in s`. -/
def strContains (s pat : String) : Bool :=
  (s.splitOn pat).length > 1

/-- settings.py lines 55-68, `load_settings`: construct `Settings`; on
failure re-raise a `ValueError` whose message is prefixed with "Failed to
load settings:" and extended with a hint for each required key named in
the underlying error. -/
def load_settings (env : EnvVars) : Except String Settings :=
  match settingsInit env with
  | .ok s => .ok s
  | .error e =>
    let base := "Failed to load settings: " ++ e
    let withLlm :=
      if strContains (pyLower e) "llm_api_key" then
        base ++ "\nMake sure to set LLM_API_KEY in your .env file"
      else base
    let full :=
      if strContains (pyLower e) "brave_api_key" then
        withLlm ++ "\nMake sure to set BRAVE_API_KEY in your .env file"
      else withLlm
    .error full

/-- dependencies.py lines 11-21: the dependency bundle.  The pooled HTTP
client it owns is tracked through the `AgentEffect` trace rather than as
data. -/
structure BraveSearchDependencies where
  brave_api_key : String
  session_id : Option String
deriving DecidableEq, Repr

/-- One observable step of the entry points: creating the pooled HTTP
client, running the model loop, closing the client. -/
inductive AgentEffect where
  | clientCreated
  | agentRun
  | clientClosed
deriving DecidableEq, Repr

/-- dependencies.py lines 23-50, `BraveSearchDependencies.create`: load
the settings (a failure propagates before any client exists), create the
HTTP client, and return the bundle. -/
def BraveSearchDependencies.create (env : EnvVars) (session_id : Option String) :
    Except String (BraveSearchDependencies × List AgentEffect) :=
  match load_settings env with
  | .error e => .error e
  | .ok s => .ok (⟨s.brave_api_key, session_id⟩, [.clientCreated])

/-- agent.py lines 88-110, `run_research`: create the dependencies, run
the agent loop (modelled by `runOutcome`: the `result.data` string or the
exception `research_agent.run` raised), and in the `finally` block close
the client; the run's exception propagates after the close. -/
def run_research (env : EnvVars) (session_id : Option String)
    (runOutcome : Except PyExn String) : Except String String × List AgentEffect :=
  match BraveSearchDependencies.create env session_id with
  | .error e => (.error e, [])
  | .ok (_, effs) =>
    match runOutcome with
    | .ok r => (.ok r, effs ++ [.agentRun, .clientClosed])
    | .error ex => (.error ex.msg, effs ++ [.agentRun, .clientClosed])

/-- agent.py lines 113-135, `run_research_sync`: same construction and
`try/finally` teardown around `research_agent.run_sync`. -/
def run_research_sync (env : EnvVars) (session_id : Option String)
    (runOutcome : Except PyExn String) : Except String String × List AgentEffect :=
  match BraveSearchDependencies.create env session_id with
  | .error e => (.error e, [])
  | .ok (_, effs) =>
    match runOutcome with
    | .ok r => (.ok r, effs ++ [.agentRun, .clientClosed])
    | .error ex => (.error ex.msg, effs ++ [.agentRun, .clientClosed])

/-- Whether an `Except` computation succeeded (a Python call that did not
raise). -/
def isOk {ε α : Type} : Except ε α → Bool
  | .ok _ => true
  | .error _ => false

/-- Whether an effect is the HTTP GET to the search endpoint. -/
def Effect.isHttpGet : Effect → Bool
  | .httpGet _ _ _ _ _ => true
  | .limiterAcquire => false

/-- The block the loop body renders for one dict result (same text as
`formatEntry` on `.obj fs`): number, title, URL and description, each
replaced by its placeholder when the key is missing. -/
def entryText (i : Nat) (fs : List (String × JsonVal)) : String :=
  toString i ++ ". **" ++ ((fs.lookup "title").getD (.str "No title")).pyStr
    ++ "**\n   URL: " ++ ((fs.lookup "url").getD (.str "No URL")).pyStr
    ++ "\n   " ++ ((fs.lookup "description").getD (.str "No description")).pyStr
    ++ "\n\n"

/-- The text the success loop produces for a list of dict results, numbered
from `i` (the non-dict case never arises under C5's shape hypothesis). -/
def entriesText : Nat → List JsonVal → String
  | _, [] => ""
  | i, JsonVal.obj fs :: rs => entryText i fs ++ entriesText (i + 1) rs
  | i, _ :: rs => entriesText (i + 1) rs

/-- The outcome claim C2 asserts for every 200 response: the formatted
report (which always begins with `resultsHeader`) or the no-results
message.  Stated from the claim's words, to be compared with what the
code returns. -/
def claimedStatus200Outcome (query s : String) : Prop :=
  s = noResultsMsg query ∨ ∃ rest, s = resultsHeader query ++ rest

/-! Helper lemmas shared by the claim theorems. -/

/-- The `try/except` handlers cover every modelled exception: whatever the
body does, the handled computation returns a string. -/
theorem pyTryExcept_ok (body : Except PyExn String) :
    ∃ s, pyTryExcept body = .ok s := by
  cases body with
  | ok s => exact ⟨s, rfl⟩
  | error e =>
    cases h : e.isTimeout with
    | true => exact ⟨"Error: Search request timed out", by simp [pyTryExcept, h]⟩
    | false =>
      exact ⟨"Error: Search failed: " ++ e.msg, by simp [pyTryExcept, h]⟩

/-- `brave_search_tool` never raises: every invocation returns a string
and a trace. -/
theorem brave_search_tool_total (api_key query : String) (max_results : Int)
    (outcome : HttpResult) :
    ∃ out, brave_search_tool api_key query max_results outcome = .ok out := by
  unfold brave_search_tool
  split
  · exact ⟨_, rfl⟩
  split
  · exact ⟨_, rfl⟩
  obtain ⟨s, hs⟩ := pyTryExcept_ok (requestAndFormat query outcome)
  rw [hs]
  exact ⟨_, rfl⟩

/-- The trace of a `brave_search_tool` call is empty (an early guard
return) or exactly one limiter acquisition followed by one GET with the
clamped count. -/
theorem brave_search_tool_effects (api_key query : String) (max_results : Int)
    (outcome : HttpResult) (s : String) (effs : List Effect)
    (h : brave_search_tool api_key query max_results outcome = .ok (s, effs)) :
    effs = [] ∨
      effs = [.limiterAcquire,
        .httpGet braveApiUrl api_key query (min (max max_results 1) 20) "en"] := by
  unfold brave_search_tool at h
  split at h
  · left
    exact congrArg Prod.snd (Except.ok.inj h) |>.symm
  split at h
  · left
    exact congrArg Prod.snd (Except.ok.inj h) |>.symm
  obtain ⟨t, ht⟩ := pyTryExcept_ok (requestAndFormat query outcome)
  rw [ht] at h
  right
  exact congrArg Prod.snd (Except.ok.inj h) |>.symm

/-- `dictGet` either succeeds or raises a non-timeout exception. -/
theorem dictGet_shape (v : JsonVal) (key : String) (d : JsonVal) :
    (∃ w, v.dictGet key d = .ok w) ∨ ∃ m, v.dictGet key d = .error ⟨false, m⟩ := by
  cases v with
  | obj fields => exact .inl ⟨_, rfl⟩
  | arr elems => exact .inr ⟨_, rfl⟩
  | str s => exact .inr ⟨_, rfl⟩
  | prim rep t => exact .inr ⟨_, rfl⟩

/-- `pyIterate` either succeeds or raises a non-timeout exception. -/
theorem pyIterate_shape (v : JsonVal) :
    (∃ l, v.pyIterate = .ok l) ∨ ∃ m, v.pyIterate = .error ⟨false, m⟩ := by
  cases v with
  | obj fields => exact .inl ⟨_, rfl⟩
  | arr elems => exact .inl ⟨_, rfl⟩
  | str s => exact .inl ⟨_, rfl⟩
  | prim rep t => exact .inr ⟨_, rfl⟩

/-- `formatEntry` either succeeds or raises a non-timeout exception. -/
theorem formatEntry_shape (i : Nat) (r : JsonVal) :
    (∃ s, formatEntry i r = .ok s) ∨ ∃ m, formatEntry i r = .error ⟨false, m⟩ := by
  cases r with
  | obj fields => exact .inl ⟨_, rfl⟩
  | arr elems => exact .inr ⟨_, rfl⟩
  | str s => exact .inr ⟨_, rfl⟩
  | prim rep t => exact .inr ⟨_, rfl⟩

/-- `formatEntries` either succeeds or raises a non-timeout exception. -/
theorem formatEntries_shape (i : Nat) (rs : List JsonVal) :
    (∃ s, formatEntries i rs = .ok s) ∨
      ∃ m, formatEntries i rs = .error ⟨false, m⟩ := by
  induction rs generalizing i with
  | nil => exact .inl ⟨_, rfl⟩
  | cons r rs ih =>
    rcases formatEntry_shape i r with ⟨s, hs⟩ | ⟨m, hm⟩
    · rcases ih (i + 1) with ⟨t, ht⟩ | ⟨m, hm⟩
      · exact .inl ⟨s ++ t, by simp [formatEntries, hs, ht]⟩
      · exact .inr ⟨m, by simp [formatEntries, hs, hm]⟩
    · exact .inr ⟨m, by simp [formatEntries, hm]⟩

/-- `walkWebResults` either succeeds or raises a non-timeout exception. -/
theorem walkWebResults_shape (data : JsonVal) :
    (∃ w, walkWebResults data = .ok w) ∨
      ∃ m, walkWebResults data = .error ⟨false, m⟩ := by
  rcases dictGet_shape data "web" (.obj []) with ⟨w, hw⟩ | ⟨m, hm⟩
  · rcases dictGet_shape w "results" (.arr []) with ⟨r, hr⟩ | ⟨m, hm⟩
    · exact .inl ⟨r, by simp [walkWebResults, hw, hr]⟩
    · exact .inr ⟨m, by simp [walkWebResults, hw, hm]⟩
  · exact .inr ⟨m, by simp [walkWebResults, hm]⟩

/-- On a parsed 200 body, `formatData` returns the no-results message, a
string beginning with the report header, or raises a non-timeout
exception. -/
theorem formatData_shape (query : String) (data : JsonVal) :
    formatData query data = .ok (noResultsMsg query) ∨
      (∃ rest, formatData query data = .ok (resultsHeader query ++ rest)) ∨
      ∃ m, formatData query data = .error ⟨false, m⟩ := by
  rcases walkWebResults_shape data with ⟨w, hw⟩ | ⟨m, hm⟩
  · cases htr : w.isTruthy with
    | false => exact .inl (by simp [formatData, hw, htr])
    | true =>
      rcases pyIterate_shape w with ⟨items, hit⟩ | ⟨m, hm2⟩
      · rcases formatEntries_shape 1 items with ⟨s, hs⟩ | ⟨m, hm3⟩
        · exact .inr (.inl ⟨s, by simp [formatData, hw, htr, hit, hs]⟩)
        · exact .inr (.inr ⟨m, by simp [formatData, hw, htr, hit, hm3]⟩)
      · exact .inr (.inr ⟨m, by simp [formatData, hw, htr, hm2]⟩)
  · exact .inr (.inr ⟨m, by simp [formatData, hm]⟩)

/-- On dict results, `formatEntry` is the pure block `entryText`. -/
theorem formatEntry_obj (i : Nat) (fs : List (String × JsonVal)) :
    formatEntry i (.obj fs) = .ok (entryText i fs) := rfl

/-- On a list of dict results, the loop succeeds and produces
`entriesText`. -/
theorem formatEntries_objs (i : Nat) (rs : List JsonVal)
    (h : ∀ r ∈ rs, ∃ fs, r = JsonVal.obj fs) :
    formatEntries i rs = .ok (entriesText i rs) := by
  induction rs generalizing i with
  | nil => rfl
  | cons r rs ih =>
    obtain ⟨fs, rfl⟩ := h r (by simp)
    have ih2 := ih (i + 1) (fun r hr => h r (by simp [hr]))
    simp [formatEntries, formatEntry_obj, ih2, entriesText]

/-- A required key field validates exactly when it is present and not
empty or whitespace-only. -/
theorem fieldError_none_iff (f : String) (o : Option String) :
    fieldError f o = none ↔ ∃ v, o = some v ∧ pyStrip v ≠ "" := by
  cases o with
  | none => simp [fieldError]
  | some v =>
    cases h : (v == "" || pyStrip v == "") with
    | true =>
      have hv : pyStrip v = "" := by
        have h2 := h
        simp only [Bool.or_eq_true, beq_iff_eq] at h2
        rcases h2 with rfl | h2
        · rfl
        · exact h2
      simp [fieldError, validate_api_keys, h, hv]
    | false =>
      have h2 := h
      simp only [Bool.or_eq_false_iff, beq_eq_false_iff_ne, ne_eq] at h2
      simp [fieldError, validate_api_keys, h, h2.2]

/-- The `debug` field validates exactly when it is absent (default) or its
value coerces to a boolean. -/
theorem debugParse_ok_iff (o : Option String) :
    isOk (debugParse o) = true ↔
      ∀ s, o = some s → isOk (parseBool s) = true := by
  cases o with
  | none => simp [debugParse, isOk]
  | some s =>
    cases hp : parseBool s with
    | ok b => simp [debugParse, hp, isOk]
    | error m => simp [debugParse, hp, isOk]

/-- `load_settings` succeeds exactly when both required key fields
validate and the `debug` value coerces. -/
theorem load_settings_isOk_iff (env : EnvVars) :
    isOk (load_settings env) = true ↔
      fieldError "llm_api_key" env.llm_api_key = none ∧
      fieldError "brave_api_key" env.brave_api_key = none ∧
      isOk (debugParse env.debug) = true := by
  cases h1 : fieldError "llm_api_key" env.llm_api_key <;>
    cases h2 : fieldError "brave_api_key" env.brave_api_key <;>
      cases h3 : debugParse env.debug <;>
        simp [load_settings, settingsInit, h1, h2, h3, isOk]

/-! The claim theorems. -/

/-- C3: `brave_search_tool` distinguishes a timeout from a generic
exception: an `asyncio.TimeoutError` raised during the request yields the
dedicated "Error: Search request timed out" string, and every other
exception yields "Error: Search failed: " followed by that exception's
text. -/
theorem C3_timeout_vs_generic_exception (api_key query : String)
    (max_results : Int) (e : PyExn)
    (hk : (api_key == "" || pyStrip api_key == "") = false)
    (hq : (query == "" || pyStrip query == "") = false) :
    brave_search_tool api_key query max_results (.raised e) =
      .ok ((if e.isTimeout then "Error: Search request timed out"
            else "Error: Search failed: " ++ e.msg),
        [.limiterAcquire,
         .httpGet braveApiUrl api_key query (min (max max_results 1) 20) "en"]) := by
  cases ht : e.isTimeout <;>
    simp [brave_search_tool, requestAndFormat, pyTryExcept, hk, hq, ht]

/-- Witness for C3: a timeout and a generic exception at concrete
inputs. -/
theorem C3_timeout_witness :
    brave_search_tool "key" "lean" 5 (.raised ⟨true, "t"⟩) =
      .ok ("Error: Search request timed out",
        [.limiterAcquire, .httpGet braveApiUrl "key" "lean" 5 "en"]) ∧
    brave_search_tool "key" "lean" 5 (.raised ⟨false, "boom"⟩) =
      .ok ("Error: Search failed: boom",
        [.limiterAcquire, .httpGet braveApiUrl "key" "lean" 5 "en"]) :=
  ⟨C3_timeout_vs_generic_exception "key" "lean" 5 ⟨true, "t"⟩
      (by decide) (by decide),
   C3_timeout_vs_generic_exception "key" "lean" 5 ⟨false, "boom"⟩
      (by decide) (by decide)⟩

/-- C4: `brave_search_tool` never raises: for every API key, query,
`max_results` and HTTP outcome (any status, malformed JSON body, or
client exception), it returns a string result. -/
theorem C4_never_raises (api_key query : String) (max_results : Int)
    (outcome : HttpResult) :
    ∃ out, brave_search_tool api_key query max_results outcome = .ok out :=
  brave_search_tool_total api_key query max_results outcome

/-- C6: no retry or backoff: every invocation of `brave_search_tool`
issues at most one HTTP GET, whatever the response status or error. -/
theorem C6_at_most_one_get (api_key query : String) (max_results : Int)
    (outcome : HttpResult) (s : String) (effs : List Effect)
    (h : brave_search_tool api_key query max_results outcome = .ok (s, effs)) :
    effs.countP (fun e => e.isHttpGet) ≤ 1 := by
  rcases brave_search_tool_effects api_key query max_results outcome s effs h
    with h2 | h2 <;> subst h2 <;>
    simp [List.countP_cons, List.countP_nil, Effect.isHttpGet]

/-- Witness for C6: a concrete invocation whose trace holds one GET. -/
theorem C6_single_get_witness :
    List.countP (fun e => e.isHttpGet)
      [Effect.limiterAcquire, Effect.httpGet braveApiUrl "key" "lean" 5 "en"] ≤ 1 :=
  C6_at_most_one_get "key" "lean" 5 (.raised ⟨false, "x"⟩)
    "Error: Search failed: x"
    [Effect.limiterAcquire, Effect.httpGet braveApiUrl "key" "lean" 5 "en"] rfl

/-- C10: an empty or whitespace-only API key or query makes
`brave_search_tool` return the corresponding error string with an empty
trace: no rate limiter acquisition and no HTTP request. -/
theorem C10_guard_no_effects (api_key query : String) (max_results : Int)
    (outcome : HttpResult)
    (h : pyStrip api_key = "" ∨ pyStrip query = "") :
    brave_search_tool api_key query max_results outcome =
      .ok ((if api_key == "" || pyStrip api_key == "" then
              "Error: Brave API key is required"
            else "Error: Search query cannot be empty"), []) := by
  cases hk : (api_key == "" || pyStrip api_key == "") with
  | true => simp [brave_search_tool, hk]
  | false =>
    have hk2 := hk
    simp only [Bool.or_eq_false_iff, beq_eq_false_iff_ne, ne_eq] at hk2
    have hq : (query == "" || pyStrip query == "") = true := by
      rcases h with h | h
      · exact absurd h hk2.2
      · simp [h]
    simp [brave_search_tool, hk, hq]

/-- Witness for C10: a whitespace-only key at a concrete input. -/
theorem C10_guard_witness :
    brave_search_tool "   " "lean" 5 (.raised ⟨false, "x"⟩) =
      .ok ("Error: Brave API key is required", []) :=
  C10_guard_no_effects "   " "lean" 5 (.raised ⟨false, "x"⟩)
    (Or.inl (by decide))

/-- C2 (amended): the status code of every response is classified by the
fixed branch table — 429 to the rate-limited string, 401 to the
invalid-key string, any other non-200 status to the generic error string
with the status code and (truncated) response text; a 200 response whose
body fails to parse as JSON yields the exception-branch string
"Error: Search failed: ...", and a 200 response whose body parses yields
the formatted results, the no-results message, or (when walking the JSON
shape raises) that same exception-branch string. -/
theorem C2_response_classification (api_key query text : String)
    (max_results : Int) (status : Nat) (body : Except String JsonVal)
    (hk : (api_key == "" || pyStrip api_key == "") = false)
    (hq : (query == "" || pyStrip query == "") = false) :
    (status = 429 →
      brave_search_tool api_key query max_results (.response status text body) =
        .ok ("Error: Rate limit exceeded. Please try again in a moment.",
          [.limiterAcquire,
           .httpGet braveApiUrl api_key query (min (max max_results 1) 20) "en"])) ∧
    (status = 401 →
      brave_search_tool api_key query max_results (.response status text body) =
        .ok ("Error: Invalid Brave API key. Please check your configuration.",
          [.limiterAcquire,
           .httpGet braveApiUrl api_key query (min (max max_results 1) 20) "en"])) ∧
    (status ≠ 429 → status ≠ 401 → status ≠ 200 →
      brave_search_tool api_key query max_results (.response status text body) =
        .ok ("Error: Brave API returned " ++ toString status ++ ": " ++ text.take 200,
          [.limiterAcquire,
           .httpGet braveApiUrl api_key query (min (max max_results 1) 20) "en"])) ∧
    (status = 200 → ∀ m, body = .error m →
      brave_search_tool api_key query max_results (.response status text body) =
        .ok ("Error: Search failed: " ++ m,
          [.limiterAcquire,
           .httpGet braveApiUrl api_key query (min (max max_results 1) 20) "en"])) ∧
    (status = 200 → ∀ data, body = .ok data →
      brave_search_tool api_key query max_results (.response status text body) =
        .ok (noResultsMsg query,
          [.limiterAcquire,
           .httpGet braveApiUrl api_key query (min (max max_results 1) 20) "en"]) ∨
      (∃ rest,
        brave_search_tool api_key query max_results (.response status text body) =
          .ok (resultsHeader query ++ rest,
            [.limiterAcquire,
             .httpGet braveApiUrl api_key query (min (max max_results 1) 20) "en"])) ∨
      (∃ m,
        brave_search_tool api_key query max_results (.response status text body) =
          .ok ("Error: Search failed: " ++ m,
            [.limiterAcquire,
             .httpGet braveApiUrl api_key query (min (max max_results 1) 20) "en"]))) := by
  refine ⟨?_, ?_, ?_, ?_, ?_⟩
  · rintro rfl
    simp [brave_search_tool, requestAndFormat, pyTryExcept, hk, hq]
  · rintro rfl
    simp [brave_search_tool, requestAndFormat, pyTryExcept, hk, hq]
  · intro h1 h2 h3
    have b1 : (status == 429) = false := by simp [h1]
    have b2 : (status == 401) = false := by simp [h2]
    have b3 : (status != 200) = true := by simp [h3]
    simp [brave_search_tool, requestAndFormat, pyTryExcept, hk, hq, b1, b2, b3]
  · rintro rfl m rfl
    simp [brave_search_tool, requestAndFormat, pyTryExcept, hk, hq]
  · rintro rfl data rfl
    rcases formatData_shape query data with hfd | ⟨rest, hfd⟩ | ⟨m, hfd⟩
    · exact .inl (by
        simp [brave_search_tool, requestAndFormat, pyTryExcept, hk, hq, hfd])
    · exact .inr (.inl ⟨rest, by
        simp [brave_search_tool, requestAndFormat, pyTryExcept, hk, hq, hfd]⟩)
    · exact .inr (.inr ⟨m, by
        simp [brave_search_tool, requestAndFormat, pyTryExcept, hk, hq, hfd]⟩)

/-- Witness for C2 (amended): a concrete 429 response. -/
theorem C2_classification_witness :
    brave_search_tool "key" "lean" 5 (.response 429 "" (.ok (.obj []))) =
      .ok ("Error: Rate limit exceeded. Please try again in a moment.",
        [.limiterAcquire, .httpGet braveApiUrl "key" "lean" 5 "en"]) :=
  (C2_response_classification "key" "lean" "" 5 429 (.ok (.obj []))
    (by decide) (by decide)).1 rfl

/-- Counterexample to C2 as stated: a 200 response whose body is not valid
JSON returns the exception-branch string "Error: Search failed: bad",
which is neither the formatted results nor the no-results message. -/
theorem C2_original_counterexample :
    brave_search_tool "key" "quantum computing applications" 10
        (.response 200 "" (.error "bad")) =
      .ok ("Error: Search failed: bad",
        [.limiterAcquire,
         .httpGet braveApiUrl "key" "quantum computing applications" 10 "en"]) ∧
    ¬ claimedStatus200Outcome "quantum computing applications"
        "Error: Search failed: bad" := by
  refine ⟨rfl, ?_⟩
  intro hcl
  rcases hcl with h | ⟨rest, h⟩
  · exact absurd h (by decide)
  · have hlen := congrArg String.length h
    rw [String.length_append] at hlen
    have h1 : ("Error: Search failed: bad").length = 25 := by decide
    have h2 : (resultsHeader "quantum computing applications").length = 54 := by
      decide
    rw [h1, h2] at hlen
    omega

/-- C5: on a 200 response whose JSON walks to a results list, a non-empty
list is rendered as the header naming the query followed by one numbered
block per result in order (title, URL and description, each replaced by
its placeholder when missing), and an empty or absent list yields the
no-results message naming the query. -/
theorem C5_result_formatting (api_key query text : String) (max_results : Int)
    (data : JsonVal) (rs : List JsonVal)
    (hk : (api_key == "" || pyStrip api_key == "") = false)
    (hq : (query == "" || pyStrip query == "") = false)
    (hwalk : walkWebResults data = .ok (.arr rs))
    (hobjs : ∀ r ∈ rs, ∃ fs, r = JsonVal.obj fs) :
    brave_search_tool api_key query max_results (.response 200 text (.ok data)) =
      .ok ((if rs.isEmpty then noResultsMsg query
            else resultsHeader query ++ entriesText 1 rs),
        [.limiterAcquire,
         .httpGet braveApiUrl api_key query (min (max max_results 1) 20) "en"]) := by
  have hfd : formatData query data =
      .ok (if rs.isEmpty then noResultsMsg query
           else resultsHeader query ++ entriesText 1 rs) := by
    cases rs with
    | nil => simp [formatData, hwalk, JsonVal.isTruthy]
    | cons r rs2 =>
      have hfe := formatEntries_objs 1 (r :: rs2) hobjs
      simp [formatData, hwalk, JsonVal.isTruthy, JsonVal.pyIterate, hfe]
  simp [brave_search_tool, requestAndFormat, pyTryExcept, hk, hq, hfd]

/-- Witness for C5: a concrete 200 response with two results, the second
with every field missing. -/
theorem C5_formatting_witness :
    brave_search_tool "key" "lean" 2 (.response 200 ""
        (.ok (.obj [("web", .obj [("results", .arr
          [.obj [("title", .str "T"), ("url", .str "U"), ("description", .str "D")],
           .obj []])])]))) =
      .ok (resultsHeader "lean" ++ entriesText 1
          [.obj [("title", .str "T"), ("url", .str "U"), ("description", .str "D")],
           .obj []],
        [.limiterAcquire, .httpGet braveApiUrl "key" "lean" 2 "en"]) :=
  C5_result_formatting "key" "lean" "" 2
    (.obj [("web", .obj [("results", .arr
      [.obj [("title", .str "T"), ("url", .str "U"), ("description", .str "D")],
       .obj []])])])
    [.obj [("title", .str "T"), ("url", .str "U"), ("description", .str "D")],
     .obj []]
    (by decide) (by decide) rfl
    (by
      intro r hr
      simp only [List.mem_cons, List.not_mem_nil, or_false] at hr
      rcases hr with rfl | rfl
      · exact ⟨_, rfl⟩
      · exact ⟨_, rfl⟩)

/-- Counterexample to C7 as stated: with both required API keys present
and non-empty but `DEBUG=garbage` in the environment, `Settings()` fails
the boolean coercion of `debug` and `load_settings` raises — so the
loader does not succeed "whenever both required keys are present and
non-empty". -/
theorem C7_original_counterexample :
    isOk (load_settings { llm_api_key := some "k", brave_api_key := some "b", debug := some "garbage" }) = false ∧
    pyStrip "k" ≠ "" ∧ pyStrip "b" ≠ "" :=
  ⟨rfl, by decide, by decide⟩

/-- C7 (amended): the settings loader returns a `Settings` object exactly
when both required API keys are present and not empty or whitespace-only
and every other environment value coerces to its field's type — of which
only `debug: bool` can fail, its value (when set) having to parse as a
boolean; otherwise it raises. -/
theorem C7_load_settings_validation (env : EnvVars) :
    isOk (load_settings env) = true ↔
      ((∃ v, env.llm_api_key = some v ∧ pyStrip v ≠ "") ∧
       (∃ v, env.brave_api_key = some v ∧ pyStrip v ≠ "") ∧
       (∀ s, env.debug = some s → isOk (parseBool s) = true)) := by
  rw [load_settings_isOk_iff, fieldError_none_iff, fieldError_none_iff,
    debugParse_ok_iff]

/-- C8: whenever `BraveSearchDependencies.create` succeeds, both entry
points create the client, run the model loop and close the client — the
close happens on every path, and when the run raises, the exception still
propagates after the close. -/
theorem C8_client_teardown (env : EnvVars) (sid : Option String)
    (runOutcome : Except PyExn String)
    (h : isOk (BraveSearchDependencies.create env sid) = true) :
    (run_research env sid runOutcome).2 =
      [.clientCreated, .agentRun, .clientClosed] ∧
    (run_research_sync env sid runOutcome).2 =
      [.clientCreated, .agentRun, .clientClosed] ∧
    (isOk runOutcome = false →
      isOk (run_research env sid runOutcome).1 = false ∧
      isOk (run_research_sync env sid runOutcome).1 = false) := by
  cases hc : BraveSearchDependencies.create env sid with
  | error e => rw [hc] at h; simp [isOk] at h
  | ok pr =>
    have hpr : pr.2 = [AgentEffect.clientCreated] := by
      unfold BraveSearchDependencies.create at hc
      cases hs : load_settings env with
      | error e => rw [hs] at hc; simp at hc
      | ok s =>
        rw [hs] at hc
        exact (congrArg Prod.snd (Except.ok.inj hc)).symm ▸ rfl
    cases runOutcome with
    | ok r => simp [run_research, run_research_sync, hc, hpr, isOk]
    | error ex => simp [run_research, run_research_sync, hc, hpr, isOk]

/-- Witness for C8: a valid environment and a raising model run. -/
theorem C8_teardown_witness :
    (run_research { llm_api_key := some "k", brave_api_key := some "b" } none
        (.error ⟨false, "boom"⟩)).2 =
      [.clientCreated, .agentRun, .clientClosed] ∧
    (run_research_sync { llm_api_key := some "k", brave_api_key := some "b" } none
        (.error ⟨false, "boom"⟩)).2 =
      [.clientCreated, .agentRun, .clientClosed] ∧
    (isOk (.error ⟨false, "boom"⟩ : Except PyExn String) = false →
      isOk (run_research { llm_api_key := some "k", brave_api_key := some "b" }
          none (.error ⟨false, "boom"⟩)).1 = false ∧
      isOk (run_research_sync { llm_api_key := some "k", brave_api_key := some "b" }
          none (.error ⟨false, "boom"⟩)).1 = false) :=
  C8_client_teardown { llm_api_key := some "k", brave_api_key := some "b" }
    none (.error ⟨false, "boom"⟩) rfl

/-- C9: every GET issued by `brave_search_tool` or by the agent tool
`search_web` carries the count `min (max max_results 1) 20`, which always
lies between 1 and 20. -/
theorem C9_count_clamped (api_key query : String) (max_results : Int)
    (outcome : HttpResult) (s : String) (effs : List Effect)
    (h : brave_search_tool api_key query max_results outcome = .ok (s, effs) ∨
      search_web api_key query max_results outcome = .ok (s, effs))
    (url tok q lang : String) (c : Int)
    (hmem : Effect.httpGet url tok q c lang ∈ effs) :
    c = min (max max_results 1) 20 ∧ 1 ≤ c ∧ c ≤ 20 := by
  have hc : c = min (max max_results 1) 20 := by
    rcases h with h | h
    · rcases brave_search_tool_effects _ _ _ _ _ _ h with h2 | h2
      · subst h2; simp at hmem
      · subst h2
        simp only [List.mem_cons, List.not_mem_nil, or_false] at hmem
        rcases hmem with h3 | h3
        · simp at h3
        · simp only [Effect.httpGet.injEq] at h3
          exact h3.2.2.2.1
    · simp only [search_web] at h
      obtain ⟨out, hout⟩ :=
        brave_search_tool_total api_key query (min (max max_results 1) 20) outcome
      rw [hout] at h
      simp only [Except.ok.injEq] at h
      subst h
      rcases brave_search_tool_effects _ _ _ _ _ _ hout with h2 | h2
      · subst h2; simp at hmem
      · subst h2
        simp only [List.mem_cons, List.not_mem_nil, or_false] at hmem
        rcases hmem with h3 | h3
        · simp at h3
        · simp only [Effect.httpGet.injEq] at h3
          have := h3.2.2.2.1
          omega
  subst hc
  omega

/-- Witness for C9: a concrete call asking for 25 results is clamped to
20. -/
theorem C9_clamp_witness :
    (20 : Int) = min (max 25 1) 20 ∧ (1 : Int) ≤ 20 ∧ (20 : Int) ≤ 20 :=
  C9_count_clamped "key" "lean" 25 (.raised ⟨false, "x"⟩)
    "Error: Search failed: x"
    [Effect.limiterAcquire, Effect.httpGet braveApiUrl "key" "lean" 20 "en"]
    (Or.inl rfl) braveApiUrl "key" "lean" "en" 20 (by simp)

end BraveSearch
